import Mathlib

/-!
Verification of the AyurMap backend (Express + Mongoose) against its
natural-language specification.  The relevant request handlers and
middleware are shallowly embedded as pure Lean functions over explicit
document stores; MongoDB collections become lists of documents, external
effects (JWT decoding, the Groq LLM call, geocoding, the haversine
computation over floating-point trigonometry) become function parameters.
-/

namespace AyurMap

/-! ## String primitives

JavaScript string operations are modelled on the code-point list of a
Lean string (String.toList), which keeps them executable by kernel
reduction. -/

/-- JavaScript s.substring(0, n). -/
def strTake (s : String) (n : Nat) : String := String.mk (s.toList.take n)

/-- JavaScript s.substring(n). -/
def strDrop (s : String) (n : Nat) : String := String.mk (s.toList.drop n)

/-- JavaScript s.startsWith(p). -/
def strStartsWith (s p : String) : Bool := p.toList.isPrefixOf s.toList

/-- JavaScript s.toLowerCase(). -/
def strToLower (s : String) : String := String.mk (s.toList.map Char.toLower)

/-! ## Data model: User documents (backend/models/User.js) -/

/-- A Mongoose User document.  The `uid` field plays the role of the
MongoDB `_id`; `clerkId`, `email`, names, `role` and `profileImage`
mirror the schema fields used by the middleware and routes. -/
structure UserDoc where
  uid : Nat
  clerkId : String
  email : String
  firstName : String
  lastName : String
  role : String
  profileImage : String
  phoneNumber : String
deriving Repr, DecidableEq

/-- The User collection together with the id allocator for newly
created documents. -/
structure UserStore where
  users : List UserDoc
  nextId : Nat
deriving Repr, DecidableEq

/-- User.findOne on the clerkId key. -/
def findByClerkId (users : List UserDoc) (cid : String) : Option UserDoc :=
  users.find? (fun u => u.clerkId == cid)

/-- User.findOne on the email key. -/
def findByEmail (users : List UserDoc) (em : String) : Option UserDoc :=
  users.find? (fun u => u.email == em)

/-- User.findByIdAndUpdate: apply f to the document with the given id,
leaving every other document alone.  Mongo updates never remove
documents. -/
def updateById (uid : Nat) (f : UserDoc → UserDoc) (users : List UserDoc) :
    List UserDoc :=
  users.map (fun w => if w.uid == uid then f w else w)

/-! ## Auth middleware (backend/middleware/authMiddleware.js) -/

/-- The payload of a decoded Clerk JWT, as read by authenticateUser
(fields sub, email, first_name, last_name, picture). -/
structure JwtPayload where
  sub : String
  email : Option String
  firstName : Option String
  lastName : Option String
  picture : Option String
deriving Repr, DecidableEq

/-- Outcome of a middleware: an early json error response, or next()
with the user attached to the request. -/
inductive MwOutcome where
  | denied (status : Nat) (message : String)
  | granted (user : UserDoc)
deriving Repr, DecidableEq

/-- authenticateUser (authMiddleware.js lines 5-198), with the JWT
base64 decode abstracted as the decode parameter (none models a decode
or JSON.parse failure) and the optional Clerk profile-API call taken at
its default (CLERK_SECRET_KEY unset, so clerkUserData keeps email
undefined, firstName "User", lastName "Test", profileImage "").
The fallback path trusts any undecodable token, taking its first 20
characters as the clerkId and creating a consumer user when none
exists. -/
def authenticateUser (decode : String → Option JwtPayload)
    (authHeader : Option String) (store : UserStore) :
    MwOutcome × UserStore :=
  match authHeader with
  | none => (.denied 401 "Access token required", store)
  | some h =>
    if strStartsWith h "Bearer " then
      let token := strDrop h 7
      match decode token with
      | none =>
        let clerkId := strTake token 20
        match findByClerkId store.users clerkId with
        | some u => (.granted u, store)
        | none =>
          let u : UserDoc :=
            { uid := store.nextId, clerkId := clerkId,
              email := "user@example.com", firstName := "User",
              lastName := "Test", role := "consumer", profileImage := "",
              phoneNumber := "" }
          (.granted u, ⟨store.users ++ [u], store.nextId + 1⟩)
      | some payload =>
        let clerkId := payload.sub
        let email := payload.email.getD (clerkId ++ "@temp.com")
        let firstName := payload.firstName.getD "User"
        let lastName := payload.lastName.getD ""
        let profileImage := payload.picture.getD ""
        match findByClerkId store.users clerkId with
        | some u =>
          let u2 := if firstName != "" && lastName != "" then
              { u with firstName := firstName, lastName := lastName } else u
          let u3 := if profileImage != "" then
              { u2 with profileImage := profileImage } else u2
          (.granted u3, ⟨updateById u.uid (fun _ => u3) store.users, store.nextId⟩)
        | none =>
          match findByEmail store.users email with
          | some u =>
            let u2 : UserDoc :=
              { u with clerkId := clerkId, firstName := firstName,
                       lastName := lastName, profileImage := profileImage }
            (.granted u2, ⟨updateById u.uid (fun _ => u2) store.users, store.nextId⟩)
          | none =>
            let u : UserDoc :=
              { uid := store.nextId, clerkId := clerkId, email := email,
                firstName := firstName, lastName := lastName,
                role := "consumer", profileImage := profileImage,
                phoneNumber := "" }
            (.granted u, ⟨store.users ++ [u], store.nextId + 1⟩)
    else (.denied 401 "Access token required", store)

/-- True when the request carries a usable Authorization header, i.e.
one starting with the string Bearer followed by a space. -/
def bearerHeaderOk : Option String → Bool
  | none => false
  | some h => strStartsWith h "Bearer "

/-- farmerOrAutoUpgrade (authMiddleware.js lines 231-252): farmers and
admins pass, consumers are upgraded to farmer in the store and pass,
anyone else also passes; only a missing user yields an error. -/
def farmerOrAutoUpgrade (reqUser : Option UserDoc)
    (users : List UserDoc) : MwOutcome × List UserDoc :=
  match reqUser with
  | none => (.denied 401 "Authentication required", users)
  | some u =>
    if u.role == "farmer" || u.role == "admin" then (.granted u, users)
    else if u.role == "consumer" then
      let u2 := { u with role := "farmer" }
      (.granted u2, updateById u.uid (fun w => { w with role := "farmer" }) users)
    else (.granted u, users)

/-! ## Data model: Plant documents (backend/models/Plant.js) -/

/-- A Mongoose Plant document, restricted to the fields the verified
routes read: owner, searchable text fields, location, activity flag. -/
structure PlantDoc where
  pid : Nat
  farmerId : Nat
  farmerEmail : String
  farmerName : String
  naturalName : String
  scientificName : String
  ayurvedicDescription : String
  medicinalBenefits : String
  commonNames : List String
  family : String
  lat : Rat
  lng : Rat
  city : String
  state : String
  country : String
  isActive : Bool
deriving Repr, DecidableEq

/-! ## Data model: Chat documents (backend/models/Chat.js) -/

/-- An embedded chat message.  Timestamps and readAt are abstract
clock values; `mid` is the subdocument `_id`. -/
structure Message where
  mid : Nat
  senderId : Nat
  senderEmail : String
  senderName : String
  senderRole : String
  message : String
  messageType : String
  isRead : Bool
  readAt : Option Nat
  timestamp : Nat
deriving Repr, DecidableEq

/-- A Chat document: one per (plant, consumer) pair, embedding the
message array, per-role unread counters and moderation fields.
`participants` keeps the participant user ids. -/
structure ChatDoc where
  cid : Nat
  plantId : Nat
  farmerId : Nat
  userId : Nat
  participants : List Nat
  messages : List Message
  totalMessages : Nat
  unreadFarmer : Nat
  unreadUser : Nat
  lastMessageAt : Nat
  isActive : Bool
  isReported : Bool
  reportReason : String
  reportedBy : Option Nat
  reportedAt : Option Nat
deriving Repr, DecidableEq

/-- The whole database: the three collections and the id allocator for
newly created chats. -/
structure Db where
  users : List UserDoc
  plants : List PlantDoc
  chats : List ChatDoc
  nextChatId : Nat
deriving Repr, DecidableEq

/-- Generic route response: an error with an HTTP status and message,
or a success payload carrying the status code and message. -/
inductive ApiResult where
  | err (status : Nat) (message : String)
  | ok (status : Nat) (message : String)
deriving Repr, DecidableEq

/-! ## Chat routes (backend/routes/chatRoutes.js, first router) -/

/-- The participant gate shared by every /api/chat/:chatId handler:
the requester must appear in chat.participants or have the admin
role. -/
def participantOk (requester : UserDoc) (chat : ChatDoc) : Bool :=
  chat.participants.contains requester.uid || requester.role == "admin"

/-- Result of POST /api/chat/:chatId/messages: an error response or
201 with the newly pushed message. -/
inductive SendOutcome where
  | fail (status : Nat) (message : String)
  | sent (m : Message)
deriving Repr, DecidableEq

/-- The message subdocument built by the send-message handler
(chatRoutes.js lines 109-117). -/
def mkMessage (sender : UserDoc) (mid now : Nat) (text mtype : String) :
    Message :=
  { mid := mid, senderId := sender.uid, senderEmail := sender.email,
    senderName := sender.firstName ++ " " ++ sender.lastName,
    senderRole := sender.role, message := text, messageType := mtype,
    isRead := false, readAt := none, timestamp := now }

/-- POST /api/chat/:chatId/messages (chatRoutes.js lines 68-161).
express-validator rejects a body outside 1..1000 characters before any
database access; then the participant gate runs; then one findByIdAndUpdate
pushes the message, increments totalMessages and the unread counter of
the role opposite the sender, and stamps lastMessageAt. -/
def sendMessage (sender : UserDoc) (mid now : Nat) (text mtype : String)
    (chat : ChatDoc) : SendOutcome × ChatDoc :=
  if text.length < 1 || text.length > 1000 then
    (.fail 400 "Validation failed", chat)
  else if !participantOk sender chat then
    (.fail 403 "Access denied. You are not a participant in this chat.", chat)
  else
    let m := mkMessage sender mid now text mtype
    (.sent m,
      { chat with
          messages := chat.messages ++ [m],
          totalMessages := chat.totalMessages + 1,
          unreadUser :=
            if sender.role == "farmer" then chat.unreadUser + 1
            else chat.unreadUser,
          unreadFarmer :=
            if sender.role == "farmer" then chat.unreadFarmer
            else chat.unreadFarmer + 1,
          lastMessageAt := now })

/-- GET /api/chat/:chatId (chatRoutes.js lines 14-63): after the
participant gate, the unread counter of the requester's side (farmer
for role farmer, user for every other role) is reset to 0 when it is
positive. -/
def getChat (requester : UserDoc) (chat : ChatDoc) : ApiResult × ChatDoc :=
  if !participantOk requester chat then
    (.err 403 "Access denied. You are not a participant in this chat.", chat)
  else
    if requester.role == "farmer" then
      if chat.unreadFarmer > 0 then
        (.ok 200 "success", { chat with unreadFarmer := 0 })
      else (.ok 200 "success", chat)
    else
      if chat.unreadUser > 0 then
        (.ok 200 "success", { chat with unreadUser := 0 })
      else (.ok 200 "success", chat)

/-- The in-place update performed on the addressed message by the
mark-as-read handler. -/
def markMsg (now : Nat) (m : Message) : Message :=
  { m with isRead := true, readAt := some now }

/-- chat.messages.findIndex over msg id followed by the in-place update
of that one element (chatRoutes.js lines 193-206); none models the
404 Message-not-found branch. -/
def markFirst (messageId now : Nat) : List Message → Option (List Message)
  | [] => none
  | m :: ms =>
    if m.mid == messageId then some (markMsg now m :: ms)
    else (markFirst messageId now ms).map (fun ms2 => m :: ms2)

/-- PUT /api/chat/:chatId/messages/:messageId/read (chatRoutes.js
lines 166-223). -/
def markMessageRead (requester : UserDoc) (messageId now : Nat)
    (chat : ChatDoc) : ApiResult × ChatDoc :=
  if !participantOk requester chat then
    (.err 403 "Access denied. You are not a participant in this chat.", chat)
  else
    match markFirst messageId now chat.messages with
    | none => (.err 404 "Message not found", chat)
    | some ms => (.ok 200 "Message marked as read", { chat with messages := ms })

/-- DELETE /api/chat/:chatId (chatRoutes.js lines 228-270): the chat is
deactivated, never deleted. -/
def deactivateChat (requester : UserDoc) (chat : ChatDoc) :
    ApiResult × ChatDoc :=
  if !participantOk requester chat then
    (.err 403 "Access denied. You are not a participant in this chat.", chat)
  else (.ok 200 "Chat deactivated successfully", { chat with isActive := false })

/-- POST /api/chat/:chatId/report (chatRoutes.js lines 275-336):
validation requires a reason of at least 10 characters, then the
moderation fields are set. -/
def reportChat (requester : UserDoc) (reason : String) (now : Nat)
    (chat : ChatDoc) : ApiResult × ChatDoc :=
  if reason.length < 10 then (.err 400 "Validation failed", chat)
  else if !participantOk requester chat then
    (.err 403 "Access denied. You are not a participant in this chat.", chat)
  else
    (.ok 200 "Chat reported successfully. Admin will review it.",
      { chat with isReported := true, reportReason := reason,
                  reportedBy := some requester.uid, reportedAt := some now })

/-- The Chat schema constraint on a stored message (Chat.js lines
60-104): required sender fields, an enum sender role, a message body
capped at 1000 characters, an enum message type. -/
def messageSchemaValid (m : Message) : Bool :=
  m.senderEmail != "" && m.senderName != "" &&
  (m.senderRole == "user" || m.senderRole == "farmer" || m.senderRole == "admin") &&
  m.message != "" && decide (m.message.length ≤ 1000) &&
  (m.messageType == "text" || m.messageType == "image" || m.messageType == "file")

/-! ## User routes (backend/routes/chatRoutes.js, second router) -/

/-- Result of POST /api/user/start-chat. -/
inductive StartChatOutcome where
  | plantMissing
  | started (chatId : Nat)
deriving Repr, DecidableEq

/-- POST /api/user/start-chat (chatRoutes.js lines 862-949): 404 when
the plant is absent or inactive; otherwise Chat.findOne on
(plantId, userId) either returns the existing chat or one chat is
created with the farmer and the requester as participants. -/
def startChat (requester : UserDoc) (plantId : Nat) (db : Db) :
    StartChatOutcome × Db :=
  match db.plants.find? (fun p => p.pid == plantId) with
  | none => (.plantMissing, db)
  | some plant =>
    if !plant.isActive then (.plantMissing, db)
    else
      match db.chats.find? (fun c => c.plantId == plantId && c.userId == requester.uid) with
      | some chat => (.started chat.cid, db)
      | none =>
        let chat : ChatDoc :=
          { cid := db.nextChatId, plantId := plantId,
            farmerId := plant.farmerId, userId := requester.uid,
            participants := [plant.farmerId, requester.uid],
            messages := [], totalMessages := 0, unreadFarmer := 0,
            unreadUser := 0, lastMessageAt := 0, isActive := true,
            isReported := false, reportReason := "", reportedBy := none,
            reportedAt := none }
        (.started chat.cid,
          { db with chats := db.chats ++ [chat], nextChatId := db.nextChatId + 1 })

/-- POST /api/user/sync-role (chatRoutes.js lines 470-515): the body
role must be consumer or farmer, then User.findByIdAndUpdate stores
it. -/
def syncRole (requester : UserDoc) (role : String) (users : List UserDoc) :
    ApiResult × List UserDoc :=
  if role == "consumer" || role == "farmer" then
    (.ok 200 "Role updated successfully",
      updateById requester.uid (fun u => { u with role := role }) users)
  else (.err 400 "Validation failed", users)

/-- PUT /api/user/profile (chatRoutes.js lines 980-1033), restricted to
the phone-number field of the embedded model: findByIdAndUpdate with the
new data. -/
def updateProfile (requester : UserDoc) (phone : String)
    (users : List UserDoc) : ApiResult × List UserDoc :=
  (.ok 200 "Profile updated successfully",
    updateById requester.uid
      (fun u => if phone != "" then { u with phoneNumber := phone } else u) users)

/-! ## Plant search (chatRoutes.js lines 520-662, groqService.js) -/

/-- The ten fixed health-condition keywords (chatRoutes.js line 552). -/
def healthConditions : List String :=
  ["cold", "fever", "cough", "headache", "stomach", "pain",
   "inflammation", "digestion", "anxiety", "stress"]

/-- JavaScript query.toLowerCase().includes(condition) for one keyword. -/
def containsKeyword (q c : String) : Bool :=
  decide (c.toList <:+: (strToLower q).toList)

/-- The health-condition test of the search route: some keyword occurs
in the lowercased query. -/
def isHealthCondition (q : String) : Bool :=
  healthConditions.any (fun c => containsKeyword q c)

/-- Case-insensitive substring match, the meaning of the Mongo regex
filter with options i built from the raw query. -/
def regexMatch (q field : String) : Bool :=
  decide ((strToLower q).toList <:+: (strToLower field).toList)

/-- The per-plant predicate of the non-LLM branch (chatRoutes.js lines
581-595): isActive and a case-insensitive substring hit on one of the
six searched fields (for the commonNames array, on one element). -/
def textSearchHit (q : String) (p : PlantDoc) : Bool :=
  p.isActive &&
    (regexMatch q p.naturalName || regexMatch q p.scientificName ||
     regexMatch q p.ayurvedicDescription || regexMatch q p.medicinalBenefits ||
     p.commonNames.any (fun n => regexMatch q n) || regexMatch q p.family)

/-- The per-plant predicate of the LLM branch (chatRoutes.js lines
566-577): isActive and exact name equality of naturalName,
scientificName or one commonNames element against the names returned
by the LLM. -/
def llmNameHit (names : List String) (p : PlantDoc) : Bool :=
  p.isActive &&
    (names.contains p.naturalName || names.contains p.scientificName ||
     p.commonNames.any (fun n => names.contains n))

/-- POST /api/user/search-plants without the optional location filter
(latitude and longitude absent).  The Groq call
searchPlantsForCondition is abstracted as groqNames: some of the
plantName list when it returns success with a JSON array, none
otherwise (then the LLM branch matches nothing).  The Bool of the
result is the searchType field: true for condition, false for text. -/
def searchPlants (q : String) (groqNames : Option (List String))
    (plants : List PlantDoc) : List PlantDoc × Bool :=
  if isHealthCondition q then
    match groqNames with
    | some names => (plants.filter (fun p => llmNameHit names p), true)
    | none => ([], true)
  else (plants.filter (fun p => textSearchHit q p), false)

/-! ## Nearby plants (chatRoutes.js lines 667-787 and 1083-1093) -/

/-- Math.round(d * 100) / 100, the 2-decimal rounding applied to the
distance carried by each response entry. -/
def round2 (d : Rat) : Rat := ((round (d * 100) : Int) : Rat) / 100

/-- One entry of the plants-nearby response: the plant document plus
the rounded distance. -/
structure NearbyEntry where
  plant : PlantDoc
  distance : Rat
deriving Repr, DecidableEq

/-- The Mongo prefilter of the plants-nearby query (chatRoutes.js lines
682-703): active plants inside the rough bounding box, or plants at
(0, 0) with a nonempty city. -/
def nearbyPrefilter (lat lng radius : Rat) (p : PlantDoc) : Bool :=
  p.isActive &&
    ((decide (lat - radius / 111 ≤ p.lat) && decide (p.lat ≤ lat + radius / 111) &&
      decide (lng - radius / 111 ≤ p.lng) && decide (p.lng ≤ lng + radius / 111)) ||
     (p.lat == 0 && p.lng == 0 && p.city != ""))

/-- The coordinates a plant ends up with inside the loop: plants at
(0, 0) with a city are geocoded (geo abstracts the Nominatim call; on
failure they stay at (0, 0)), every other plant keeps its stored
coordinates. -/
def resolveCoords (geo : PlantDoc → Option (Rat × Rat)) (p : PlantDoc) :
    Rat × Rat :=
  if p.lat == 0 && p.lng == 0 then
    if p.city != "" then (geo p).getD (0, 0) else (0, 0)
  else (p.lat, p.lng)

/-- The body of the per-plant loop (chatRoutes.js lines 710-764): a
plant contributes an entry only when its resolved coordinates are both
nonzero and its distance from the center is at most the radius; the
entry carries the distance rounded to 2 decimals.  dist abstracts
calculateDistance (the haversine over Math trigonometry with Earth
radius 6371). -/
def nearbyEntry (dist : Rat → Rat → Rat → Rat → Rat)
    (geo : PlantDoc → Option (Rat × Rat)) (lat lng radius : Rat)
    (p : PlantDoc) : Option NearbyEntry :=
  let c := resolveCoords geo p
  if c.1 != 0 && c.2 != 0 then
    let d := dist lat lng c.1 c.2
    if d ≤ radius then some ⟨p, round2 d⟩ else none
  else none

/-- Ascending insertion by the carried distance. -/
def insertByDistance (e : NearbyEntry) : List NearbyEntry → List NearbyEntry
  | [] => [e]
  | x :: xs =>
    if e.distance ≤ x.distance then e :: x :: xs
    else x :: insertByDistance e xs

/-- The final sort by exact numeric distance (chatRoutes.js line 767). -/
def sortByDistance : List NearbyEntry → List NearbyEntry
  | [] => []
  | x :: xs => insertByDistance x (sortByDistance xs)

/-- GET /api/user/plants-nearby: prefilter, per-plant distance filter,
ascending sort. -/
def plantsNearby (dist : Rat → Rat → Rat → Rat → Rat)
    (geo : PlantDoc → Option (Rat × Rat)) (lat lng radius : Rat)
    (plants : List PlantDoc) : List NearbyEntry :=
  sortByDistance
    ((plants.filter (fun p => nearbyPrefilter lat lng radius p)).filterMap
      (fun p => nearbyEntry dist geo lat lng radius p))

/-! ## Socket.io layer (server entry file, io.on connection block) -/

/-- Socket.io room state: the member socket ids of each room name. -/
def Rooms : Type := String → List String

/-- No socket has joined any room yet. -/
def emptyRooms : Rooms := fun _ => []

/-- socket.join(chatId): the socket is added to exactly that room
(join on a room already containing the socket is a no-op). -/
def joinChat (sock chatId : String) (st : Rooms) : Rooms :=
  fun r =>
    if r = chatId then
      if sock ∈ st chatId then st chatId else sock :: st chatId
    else st r

/-- socket.leave(chatId): the socket is removed from exactly that
room. -/
def leaveChat (sock chatId : String) (st : Rooms) : Rooms :=
  fun r =>
    if r = chatId then (st chatId).filter (fun s => s ≠ sock) else st r

/-- The payload of a send-message socket event: the room key plus the
rest of the event data, carried verbatim. -/
structure SocketPayload where
  chatId : String
  body : String
deriving Repr, DecidableEq

/-- One emitted socket event: target socket, event name, payload. -/
structure Emit where
  target : String
  event : String
  payload : SocketPayload
deriving Repr, DecidableEq

/-- The send-message handler: socket.to(data.chatId) followed by
emit of receive-message with the same data, i.e. one event per member
of that room other than the sending socket. -/
def handleSendMessage (st : Rooms) (sender : String) (data : SocketPayload) :
    List Emit :=
  ((st data.chatId).filter (fun s => s ≠ sender)).map
    (fun t => ⟨t, "receive-message", data⟩)

/-! ## Admin routes (backend/routes/adminRoutes.js) -/

/-- DELETE /api/admin/users/:id (adminRoutes.js lines 252-300): 404
when the user is absent, 400 when the target is the configured admin
account; otherwise the owned plants are hard-deleted, every chat with
the user as farmer or consumer is deactivated, and the user document
itself is hard-deleted. -/
def adminDeleteUser (adminEmail : String) (targetId : Nat) (db : Db) :
    ApiResult × Db :=
  match db.users.find? (fun u => u.uid == targetId) with
  | none => (.err 404 "User not found", db)
  | some user =>
    if user.email == adminEmail then
      (.err 400 "Cannot delete admin account", db)
    else
      (.ok 200 "User deleted successfully",
        { db with
            users := db.users.filter (fun u => u.uid != targetId),
            plants := db.plants.filter (fun p => p.farmerId != user.uid),
            chats := db.chats.map (fun c =>
              if c.farmerId == user.uid || c.userId == user.uid then
                { c with isActive := false }
              else c) })

/-! ## Helper lemmas -/

theorem updateById_uid_mem (target : Nat) (f : UserDoc → UserDoc)
    (hf : ∀ w : UserDoc, w.uid = target → (f w).uid = target)
    (us : List UserDoc) (uid : Nat) (h : ∃ w ∈ us, w.uid = uid) :
    ∃ w ∈ updateById target f us, w.uid = uid := by
  obtain ⟨w, hw, hwid⟩ := h
  by_cases ht : w.uid = target
  · refine ⟨f w, ?_, ?_⟩
    · unfold updateById
      refine List.mem_map.mpr ⟨w, hw, ?_⟩
      simp [ht]
    · rw [hf w ht, ← ht]
      exact hwid
  · refine ⟨w, ?_, hwid⟩
    unfold updateById
    refine List.mem_map.mpr ⟨w, hw, ?_⟩
    simp [ht]

/-! ## Claim theorems -/

/-- Claim C1: a request whose Authorization header starts with
Bearer always reaches next() with a user attached (with role consumer
and clerkId the first 20 token characters when the payload does not
decode and no such user exists yet), and the middleware answers 401
Access token required exactly when the header is absent or lacks the
Bearer marker. -/
theorem authenticateUser_spec (decode : String → Option JwtPayload)
    (authHeader : Option String) (store : UserStore) :
    ((authenticateUser decode authHeader store).1
        = .denied 401 "Access token required"
      ↔ bearerHeaderOk authHeader = false)
    ∧ (∀ h : String, authHeader = some h → strStartsWith h "Bearer " = true →
        ∃ u, (authenticateUser decode authHeader store).1 = .granted u)
    ∧ (∀ h : String, authHeader = some h → strStartsWith h "Bearer " = true →
        decode (strDrop h 7) = none →
        findByClerkId store.users (strTake (strDrop h 7) 20) = none →
        ∃ u, (authenticateUser decode authHeader store).1 = .granted u ∧
          u.clerkId = strTake (strDrop h 7) 20 ∧ u.role = "consumer" ∧
          (authenticateUser decode authHeader store).2.users
            = store.users ++ [u]) := by
  have granted : ∀ h : String, strStartsWith h "Bearer " = true →
      ∃ u, (authenticateUser decode (some h) store).1 = .granted u := by
    intro h hb
    unfold authenticateUser
    simp only [hb, if_true]
    rcases hd : decode (strDrop h 7) with _ | payload <;> simp only [hd]
    · rcases hf : findByClerkId store.users (strTake (strDrop h 7) 20) with _ | u <;>
        simp only [hf]
      · exact ⟨_, rfl⟩
      · exact ⟨_, rfl⟩
    · rcases hf : findByClerkId store.users payload.sub with _ | u <;>
        simp only [hf]
      · rcases hf2 : findByEmail store.users
            (payload.email.getD (payload.sub ++ "@temp.com")) with _ | u <;>
          simp only [hf2]
        · exact ⟨_, rfl⟩
        · exact ⟨_, rfl⟩
      · exact ⟨_, rfl⟩
  refine ⟨?_, ?_, ?_⟩
  · cases authHeader with
    | none => simp [authenticateUser, bearerHeaderOk]
    | some h =>
      by_cases hb : strStartsWith h "Bearer "
      · obtain ⟨u, hu⟩ := granted h hb
        rw [hu]
        simp [bearerHeaderOk, hb]
      · simp only [bearerHeaderOk, hb]
        unfold authenticateUser
        simp [hb]
  · intro h hh hb
    subst hh
    exact granted h hb
  · intro h hh hb hd hf
    subst hh
    unfold authenticateUser
    simp only [hb, if_true, hd, hf]
    exact ⟨_, rfl, rfl, rfl, rfl⟩

/-- Closed instance of authenticateUser_spec: a malformed bearer token
on an empty store yields next() with a fresh consumer whose clerkId is
the first 20 characters of the token, and a missing header yields the
401 response. -/
theorem authenticateUser_spec_witness :
    (∃ u, (authenticateUser (fun _ => none) (some "Bearer tok12345")
        ⟨[], 0⟩).1 = .granted u ∧
      u.clerkId = "tok12345" ∧ u.role = "consumer" ∧
      (authenticateUser (fun _ => none) (some "Bearer tok12345")
        ⟨[], 0⟩).2.users = [] ++ [u])
    ∧ ((authenticateUser (fun _ => none) none ⟨[], 0⟩).1
        = .denied 401 "Access token required") := by
  constructor
  · have h := (authenticateUser_spec (fun _ => none)
      (some "Bearer tok12345") ⟨[], 0⟩).2.2 "Bearer tok12345" rfl
      (by decide) rfl rfl
    simpa using h
  · exact ((authenticateUser_spec (fun _ => none) none ⟨[], 0⟩).1).mpr rfl

/-- Claim C9: farmerOrAutoUpgrade upgrades every authenticated
consumer to farmer in the store and lets the request proceed, and it
never answers an error (in particular never 403) for any authenticated
user, whatever the role. -/
theorem farmerOrAutoUpgrade_spec (u : UserDoc) (users : List UserDoc) :
    (∀ status msg,
        (farmerOrAutoUpgrade (some u) users).1 ≠ .denied status msg)
    ∧ (∃ v, (farmerOrAutoUpgrade (some u) users).1 = .granted v)
    ∧ (u.role = "consumer" →
        (farmerOrAutoUpgrade (some u) users).1
            = .granted { u with role := "farmer" }
        ∧ (farmerOrAutoUpgrade (some u) users).2
            = updateById u.uid (fun w => { w with role := "farmer" }) users
        ∧ ∀ w ∈ users, w.uid = u.uid →
            ({ w with role := "farmer" } : UserDoc)
              ∈ (farmerOrAutoUpgrade (some u) users).2) := by
  have hcases : ∃ v, (farmerOrAutoUpgrade (some u) users).1 = .granted v := by
    unfold farmerOrAutoUpgrade
    by_cases h1 : (u.role == "farmer" || u.role == "admin") = true
    · simp only [h1, if_true]
      exact ⟨_, rfl⟩
    · simp only [h1]
      by_cases h2 : (u.role == "consumer") = true
      · simp only [h2, if_true, if_false, Bool.false_eq_true]
        exact ⟨_, rfl⟩
      · simp only [h2, if_false, Bool.false_eq_true]
        exact ⟨_, rfl⟩
  refine ⟨?_, hcases, ?_⟩
  · intro status msg hcontra
    obtain ⟨v, hv⟩ := hcases
    rw [hv] at hcontra
    exact MwOutcome.noConfusion hcontra
  · intro hrole
    have hne : (u.role == "farmer" || u.role == "admin") = false := by
      simp [hrole]
    have hc : (u.role == "consumer") = true := by simp [hrole]
    refine ⟨?_, ?_, ?_⟩
    · unfold farmerOrAutoUpgrade
      simp only [hne, hc, if_true, if_false, Bool.false_eq_true]
    · unfold farmerOrAutoUpgrade
      simp only [hne, hc, if_true, if_false, Bool.false_eq_true]
    · intro w hw hwid
      unfold farmerOrAutoUpgrade
      simp only [hne, hc, if_true, if_false, Bool.false_eq_true]
      unfold updateById
      refine List.mem_map.mpr ⟨w, hw, ?_⟩
      simp [hwid]

/-- Closed instance of farmerOrAutoUpgrade_spec: a concrete consumer
passes the middleware and the stored document becomes a farmer. -/
theorem farmerOrAutoUpgrade_spec_witness :
    (farmerOrAutoUpgrade
        (some ⟨7, "ck7", "a@b.c", "Ann", "Lee", "consumer", "", ""⟩)
        [⟨7, "ck7", "a@b.c", "Ann", "Lee", "consumer", "", ""⟩]).1
      = .granted ⟨7, "ck7", "a@b.c", "Ann", "Lee", "farmer", "", ""⟩
    ∧ (⟨7, "ck7", "a@b.c", "Ann", "Lee", "farmer", "", ""⟩ : UserDoc)
        ∈ (farmerOrAutoUpgrade
            (some ⟨7, "ck7", "a@b.c", "Ann", "Lee", "consumer", "", ""⟩)
            [⟨7, "ck7", "a@b.c", "Ann", "Lee", "consumer", "", ""⟩]).2 := by
  have h := farmerOrAutoUpgrade_spec
    ⟨7, "ck7", "a@b.c", "Ann", "Lee", "consumer", "", ""⟩
    [⟨7, "ck7", "a@b.c", "Ann", "Lee", "consumer", "", ""⟩]
  have h3 := h.2.2 rfl
  exact ⟨h3.1, h3.2.2 _ (by decide) rfl⟩

/-- Helper: the authentication middleware only creates or updates user
documents, it never removes one. -/
theorem authenticateUser_preserves_uids (decode : String → Option JwtPayload)
    (hdr : Option String) (st : UserStore) (uid : Nat)
    (h : ∃ w ∈ st.users, w.uid = uid) :
    ∃ w ∈ (authenticateUser decode hdr st).2.users, w.uid = uid := by
  cases hdr with
  | none => exact h
  | some hd =>
    unfold authenticateUser
    by_cases hb : strStartsWith hd "Bearer " = true
    · simp only [hb, if_true]
      rcases hdec : decode (strDrop hd 7) with _ | payload <;> simp only [hdec]
      · rcases hf : findByClerkId st.users (strTake (strDrop hd 7) 20)
            with _ | u <;> simp only [hf]
        · obtain ⟨w, hw, hwid⟩ := h
          exact ⟨w, List.mem_append_left _ hw, hwid⟩
        · exact h
      · rcases hf : findByClerkId st.users payload.sub with _ | u <;>
          simp only [hf]
        · rcases hf2 : findByEmail st.users
              (payload.email.getD (payload.sub ++ "@temp.com")) with _ | u <;>
            simp only [hf2]
          · obtain ⟨w, hw, hwid⟩ := h
            exact ⟨w, List.mem_append_left _ hw, hwid⟩
          · refine updateById_uid_mem u.uid _ (fun w hw => ?_) st.users uid h
            rfl
        · refine updateById_uid_mem u.uid _ (fun w hw => ?_) st.users uid h
          dsimp only
          split <;> split <;> rfl
    · simp only [hb]
      simpa using h

/-- Helper: role synchronisation updates in place and never removes a
user document. -/
theorem syncRole_preserves_uids (r : UserDoc) (role : String)
    (us : List UserDoc) (uid : Nat) (h : ∃ w ∈ us, w.uid = uid) :
    ∃ w ∈ (syncRole r role us).2, w.uid = uid := by
  unfold syncRole
  by_cases hv : (role == "consumer" || role == "farmer") = true
  · simp only [hv, if_true]
    refine updateById_uid_mem r.uid _ (fun w hw => ?_) us uid h
    exact hw
  · simp only [hv]
    simpa using h

/-- Helper: the profile update never removes a user document. -/
theorem updateProfile_preserves_uids (r : UserDoc) (phone : String)
    (us : List UserDoc) (uid : Nat) (h : ∃ w ∈ us, w.uid = uid) :
    ∃ w ∈ (updateProfile r phone us).2, w.uid = uid := by
  unfold updateProfile
  refine updateById_uid_mem r.uid _ (fun w hw => ?_) us uid h
  dsimp only
  split <;> exact hw

/-- Helper: the auto-upgrade middleware never removes a user
document. -/
theorem farmerOrAutoUpgrade_preserves_uids (ru : Option UserDoc)
    (us : List UserDoc) (uid : Nat) (h : ∃ w ∈ us, w.uid = uid) :
    ∃ w ∈ (farmerOrAutoUpgrade ru us).2, w.uid = uid := by
  cases ru with
  | none => exact h
  | some u =>
    unfold farmerOrAutoUpgrade
    by_cases h1 : (u.role == "farmer" || u.role == "admin") = true
    · simp only [h1, if_true]
      exact h
    · simp only [h1]
      by_cases h2 : (u.role == "consumer") = true
      · simp only [h2, if_true, if_false, Bool.false_eq_true]
        refine updateById_uid_mem u.uid _ (fun w hw => ?_) us uid h
        exact hw
      · simp only [h2, if_false, Bool.false_eq_true]
        exact h

/-- Claim C2: when the targeted user exists and is not the configured
admin account, the admin delete hard-deletes the user, hard-deletes
every plant the user owns (keeping all others), deactivates every chat
in which the user is the farmer or the consumer (keeping all others
untouched); and no non-admin operation on the user store ever removes a
user document. -/
theorem adminDeleteUser_spec (adminEmail : String) (targetId : Nat)
    (db : Db) (user : UserDoc)
    (hfind : db.users.find? (fun u => u.uid == targetId) = some user)
    (hadmin : user.email ≠ adminEmail) :
    ((adminDeleteUser adminEmail targetId db).1
        = .ok 200 "User deleted successfully")
    ∧ (∀ u ∈ (adminDeleteUser adminEmail targetId db).2.users,
        u.uid ≠ targetId)
    ∧ (∀ p ∈ (adminDeleteUser adminEmail targetId db).2.plants,
        p.farmerId ≠ user.uid)
    ∧ (∀ p ∈ db.plants, p.farmerId ≠ user.uid →
        p ∈ (adminDeleteUser adminEmail targetId db).2.plants)
    ∧ (∀ c ∈ db.chats, c.farmerId = user.uid ∨ c.userId = user.uid →
        ({ c with isActive := false } : ChatDoc)
          ∈ (adminDeleteUser adminEmail targetId db).2.chats)
    ∧ (∀ c ∈ db.chats, c.farmerId ≠ user.uid → c.userId ≠ user.uid →
        c ∈ (adminDeleteUser adminEmail targetId db).2.chats)
    ∧ (∀ (decode : String → Option JwtPayload) (hdr : Option String)
        (st : UserStore) (uid : Nat), (∃ w ∈ st.users, w.uid = uid) →
        ∃ w ∈ (authenticateUser decode hdr st).2.users, w.uid = uid)
    ∧ (∀ (r : UserDoc) (role : String) (us : List UserDoc) (uid : Nat),
        (∃ w ∈ us, w.uid = uid) → ∃ w ∈ (syncRole r role us).2, w.uid = uid)
    ∧ (∀ (r : UserDoc) (phone : String) (us : List UserDoc) (uid : Nat),
        (∃ w ∈ us, w.uid = uid) →
        ∃ w ∈ (updateProfile r phone us).2, w.uid = uid)
    ∧ (∀ (ru : Option UserDoc) (us : List UserDoc) (uid : Nat),
        (∃ w ∈ us, w.uid = uid) →
        ∃ w ∈ (farmerOrAutoUpgrade ru us).2, w.uid = uid) := by
  have hne : (user.email == adminEmail) = false := by
    simp [hadmin]
  have hred : adminDeleteUser adminEmail targetId db
      = (.ok 200 "User deleted successfully",
        { db with
            users := db.users.filter (fun u => u.uid != targetId),
            plants := db.plants.filter (fun p => p.farmerId != user.uid),
            chats := db.chats.map (fun c =>
              if c.farmerId == user.uid || c.userId == user.uid then
                { c with isActive := false }
              else c) }) := by
    unfold adminDeleteUser
    simp only [hfind, hne, if_false, Bool.false_eq_true]
  refine ⟨by rw [hred], ?_, ?_, ?_, ?_, ?_,
    authenticateUser_preserves_uids, syncRole_preserves_uids,
    updateProfile_preserves_uids, farmerOrAutoUpgrade_preserves_uids⟩
  · intro u hu
    rw [hred] at hu
    have := (List.mem_filter.mp hu).2
    simpa using this
  · intro p hp
    rw [hred] at hp
    have := (List.mem_filter.mp hp).2
    simpa using this
  · intro p hp hpf
    rw [hred]
    exact List.mem_filter.mpr ⟨hp, by simpa using hpf⟩
  · intro c hc hcu
    rw [hred]
    refine List.mem_map.mpr ⟨c, hc, ?_⟩
    have : (c.farmerId == user.uid || c.userId == user.uid) = true := by
      rcases hcu with h1 | h1 <;> simp [h1]
    simp only [this, if_true]
  · intro c hc h1 h2
    rw [hred]
    refine List.mem_map.mpr ⟨c, hc, ?_⟩
    have : (c.farmerId == user.uid || c.userId == user.uid) = false := by
      simp [h1, h2]
    simp only [this, if_false, Bool.false_eq_true]

/-- Closed instance of adminDeleteUser_spec on a one-user database:
the delete succeeds, the user's plant is gone and the user's chat is
deactivated. -/
theorem adminDeleteUser_spec_witness :
    ((adminDeleteUser "admin@x" 1
        { users := [⟨1, "ck1", "u@x", "U", "", "farmer", "", ""⟩],
          plants := [⟨10, 1, "u@x", "U", "Tulsi", "Ocimum", "", "", [], "",
            0, 0, "", "", "", true⟩],
          chats := [⟨20, 10, 1, 2, [1, 2], [], 0, 0, 0, 0, true, false, "",
            none, none⟩],
          nextChatId := 21 }).1 = .ok 200 "User deleted successfully")
    ∧ (∀ u ∈ (adminDeleteUser "admin@x" 1
        { users := [⟨1, "ck1", "u@x", "U", "", "farmer", "", ""⟩],
          plants := [⟨10, 1, "u@x", "U", "Tulsi", "Ocimum", "", "", [], "",
            0, 0, "", "", "", true⟩],
          chats := [⟨20, 10, 1, 2, [1, 2], [], 0, 0, 0, 0, true, false, "",
            none, none⟩],
          nextChatId := 21 }).2.users, u.uid ≠ 1) := by
  have h := adminDeleteUser_spec "admin@x" 1
    { users := [⟨1, "ck1", "u@x", "U", "", "farmer", "", ""⟩],
      plants := [⟨10, 1, "u@x", "U", "Tulsi", "Ocimum", "", "", [], "",
        0, 0, "", "", "", true⟩],
      chats := [⟨20, 10, 1, 2, [1, 2], [], 0, 0, 0, 0, true, false, "",
        none, none⟩],
      nextChatId := 21 }
    ⟨1, "ck1", "u@x", "U", "", "farmer", "", ""⟩ (by decide) (by decide)
  exact ⟨h.1, h.2.1⟩

/-- Claim C3: start-chat on a (plant, consumer) pair that already has a
chat returns that chat's id and writes nothing, so running start-chat
twice from any state equals running it once. -/
theorem startChat_spec (requester : UserDoc) (plantId : Nat) (db : Db) :
    (∀ plant, db.plants.find? (fun p => p.pid == plantId) = some plant →
      plant.isActive = true →
      ∀ chat, db.chats.find?
          (fun c => c.plantId == plantId && c.userId == requester.uid)
          = some chat →
        startChat requester plantId db = (.started chat.cid, db))
    ∧ startChat requester plantId (startChat requester plantId db).2
        = ((startChat requester plantId db).1,
           (startChat requester plantId db).2) := by
  constructor
  · intro plant hp hact chat hc
    unfold startChat
    simp only [hp, hact, hc, Bool.not_true, if_false, Bool.false_eq_true]
  · rcases hp : db.plants.find? (fun p => p.pid == plantId) with _ | plant
    · simp only [startChat, hp]
    · by_cases hact : plant.isActive = true
      · rcases hc : db.chats.find?
            (fun c => c.plantId == plantId && c.userId == requester.uid)
            with _ | chat
        · -- the first call creates the chat, the second finds it
          simp only [startChat, hp, hact, hc, Bool.not_true, if_false,
            Bool.false_eq_true, List.find?_append, Option.none_or,
            List.find?_cons, List.find?_nil]
          simp
        · simp only [startChat, hp, hact, hc, Bool.not_true, if_false,
            Bool.false_eq_true]
      · have hact2 : plant.isActive = false := by
          cases hq : plant.isActive
          · rfl
          · exact absurd hq hact
        simp only [startChat, hp, hact2, Bool.not_false, if_true]

/-- Closed instance of startChat_spec: with an existing chat for plant
10 and consumer 2, start-chat answers the stored chat id 20 and leaves
the database untouched. -/
theorem startChat_spec_witness :
    startChat ⟨2, "ck2", "c@x", "C", "", "consumer", "", ""⟩ 10
      { users := [],
        plants := [⟨10, 1, "u@x", "U", "Tulsi", "Ocimum", "", "", [], "",
          0, 0, "", "", "", true⟩],
        chats := [⟨20, 10, 1, 2, [1, 2], [], 0, 0, 0, 0, true, false, "",
          none, none⟩],
        nextChatId := 21 }
      = (.started 20,
        { users := [],
          plants := [⟨10, 1, "u@x", "U", "Tulsi", "Ocimum", "", "", [], "",
            0, 0, "", "", "", true⟩],
          chats := [⟨20, 10, 1, 2, [1, 2], [], 0, 0, 0, 0, true, false, "",
            none, none⟩],
          nextChatId := 21 }) := by
  exact (startChat_spec ⟨2, "ck2", "c@x", "C", "", "consumer", "", ""⟩ 10
    { users := [],
      plants := [⟨10, 1, "u@x", "U", "Tulsi", "Ocimum", "", "", [], "",
        0, 0, "", "", "", true⟩],
      chats := [⟨20, 10, 1, 2, [1, 2], [], 0, 0, 0, 0, true, false, "",
        none, none⟩],
      nextChatId := 21 }).1
    ⟨10, 1, "u@x", "U", "Tulsi", "Ocimum", "", "", [], "", 0, 0, "", "", "",
      true⟩ (by decide) rfl
    ⟨20, 10, 1, 2, [1, 2], [], 0, 0, 0, 0, true, false, "", none, none⟩
    (by decide)

/-- Claim C4: a successful message post increments totalMessages by 1
and the unread counter of the role opposite the sender by 1 leaving the
sender's own counter unchanged, and a successful chat fetch resets the
requester's own counter to 0 leaving the other counter unchanged. -/
theorem chatCounters_spec (sender requester : UserDoc) (mid now : Nat)
    (text mtype : String) (chat : ChatDoc)
    (hs : participantOk sender chat = true)
    (hlen1 : 1 ≤ text.length) (hlen2 : text.length ≤ 1000)
    (hr : participantOk requester chat = true) :
    ((sendMessage sender mid now text mtype chat).2.totalMessages
        = chat.totalMessages + 1)
    ∧ (sender.role = "farmer" →
        (sendMessage sender mid now text mtype chat).2.unreadUser
            = chat.unreadUser + 1
        ∧ (sendMessage sender mid now text mtype chat).2.unreadFarmer
            = chat.unreadFarmer)
    ∧ (sender.role ≠ "farmer" →
        (sendMessage sender mid now text mtype chat).2.unreadFarmer
            = chat.unreadFarmer + 1
        ∧ (sendMessage sender mid now text mtype chat).2.unreadUser
            = chat.unreadUser)
    ∧ (requester.role = "farmer" →
        (getChat requester chat).2.unreadFarmer = 0
        ∧ (getChat requester chat).2.unreadUser = chat.unreadUser)
    ∧ (requester.role ≠ "farmer" →
        (getChat requester chat).2.unreadUser = 0
        ∧ (getChat requester chat).2.unreadFarmer = chat.unreadFarmer) := by
  have hv : (decide (text.length < 1) || decide (text.length > 1000))
      = false := by
    simp only [Bool.or_eq_false_iff, decide_eq_false_iff_not]
    omega
  have hsend : ∀ P : ChatDoc → Prop,
      P { chat with
            messages := chat.messages
              ++ [mkMessage sender mid now text mtype],
            totalMessages := chat.totalMessages + 1,
            unreadUser :=
              if sender.role == "farmer" then chat.unreadUser + 1
              else chat.unreadUser,
            unreadFarmer :=
              if sender.role == "farmer" then chat.unreadFarmer
              else chat.unreadFarmer + 1,
            lastMessageAt := now } →
      P (sendMessage sender mid now text mtype chat).2 := by
    intro P hP
    unfold sendMessage
    simp only [hv, hs, Bool.not_true, if_false, Bool.false_eq_true]
    exact hP
  refine ⟨hsend (fun c => c.totalMessages = chat.totalMessages + 1) rfl,
    ?_, ?_, ?_, ?_⟩
  · intro hrole
    have hb : (sender.role == "farmer") = true := by simp [hrole]
    constructor
    · exact hsend (fun c => c.unreadUser = chat.unreadUser + 1)
        (by simp only [hb, if_true])
    · exact hsend (fun c => c.unreadFarmer = chat.unreadFarmer)
        (by simp only [hb, if_true])
  · intro hrole
    have hb : (sender.role == "farmer") = false := by simp [hrole]
    constructor
    · exact hsend (fun c => c.unreadFarmer = chat.unreadFarmer + 1)
        (by simp only [hb, if_false, Bool.false_eq_true])
    · exact hsend (fun c => c.unreadUser = chat.unreadUser)
        (by simp only [hb, if_false, Bool.false_eq_true])
  · intro hrole
    have hb : (requester.role == "farmer") = true := by simp [hrole]
    unfold getChat
    simp only [hr, Bool.not_true, if_false, Bool.false_eq_true, hb, if_true]
    by_cases hz : chat.unreadFarmer > 0
    · simp [hz]
    · simp [hz]
      omega
  · intro hrole
    have hb : (requester.role == "farmer") = false := by simp [hrole]
    unfold getChat
    simp only [hr, Bool.not_true, if_false, Bool.false_eq_true, hb]
    by_cases hz : chat.unreadUser > 0
    · simp [hz]
    · simp [hz]
      omega

/-- Closed instance of chatCounters_spec: a farmer sender on a concrete
chat bumps totalMessages and the user counter, and a consumer fetch
clears the user counter. -/
theorem chatCounters_spec_witness :
    ((sendMessage ⟨1, "ckf", "f@x", "F", "", "farmer", "", ""⟩ 100 5 "hi"
        "text"
        ⟨20, 10, 1, 2, [1, 2], [], 3, 4, 6, 0, true, false, "", none,
          none⟩).2.totalMessages = 4)
    ∧ ((sendMessage ⟨1, "ckf", "f@x", "F", "", "farmer", "", ""⟩ 100 5 "hi"
        "text"
        ⟨20, 10, 1, 2, [1, 2], [], 3, 4, 6, 0, true, false, "", none,
          none⟩).2.unreadUser = 7)
    ∧ ((getChat ⟨2, "ckc", "c@x", "C", "", "consumer", "", ""⟩
        ⟨20, 10, 1, 2, [1, 2], [], 3, 4, 6, 0, true, false, "", none,
          none⟩).2.unreadUser = 0) := by
  have h := chatCounters_spec ⟨1, "ckf", "f@x", "F", "", "farmer", "", ""⟩
    ⟨2, "ckc", "c@x", "C", "", "consumer", "", ""⟩ 100 5 "hi" "text"
    ⟨20, 10, 1, 2, [1, 2], [], 3, 4, 6, 0, true, false, "", none, none⟩
    (by decide) (by decide) (by decide) (by decide)
  exact ⟨h.1, (h.2.1 rfl).1, (h.2.2.2.2 (by decide)).1⟩

/-- Helper: a successful findIndex-and-mark splits the message list
around the first message carrying the addressed id, changing only that
message and only its isRead and readAt fields. -/
theorem markFirst_spec (messageId now : Nat) :
    ∀ ms ms2 : List Message, markFirst messageId now ms = some ms2 →
      ∃ pre m post, ms = pre ++ m :: post
        ∧ (m.mid == messageId) = true
        ∧ ms2 = pre ++ markMsg now m :: post := by
  intro ms
  induction ms with
  | nil => intro ms2 h; exact absurd h (by simp [markFirst])
  | cons m tl ih =>
    intro ms2 h
    unfold markFirst at h
    by_cases hm : (m.mid == messageId) = true
    · rw [if_pos hm] at h
      exact ⟨[], m, tl, by simp, hm, by simpa using h.symm⟩
    · rw [if_neg hm] at h
      rcases ho : markFirst messageId now tl with _ | tl2
      · rw [ho] at h
        exact absurd h (by simp)
      · rw [ho] at h
        obtain ⟨pre, mm, post, h1, h2, h3⟩ := ih tl2 ho
        refine ⟨m :: pre, mm, post, by simp [h1], h2, ?_⟩
        have : ms2 = m :: tl2 := by simpa using h.symm
        simp [this, h3]

/-- Claim C7: the message array is append-only.  Posting appends
exactly one message at the end (and changes nothing on failure),
mark-as-read only sets isRead and readAt on the first message with the
addressed id, user-initiated delete only clears isActive, and reporting
never touches the messages; no operation removes a message or alters an
existing sender, body or timestamp. -/
theorem chatMessages_appendOnly_spec (sender requester : UserDoc)
    (mid now messageId : Nat) (text mtype reason : String)
    (chat : ChatDoc) :
    (∀ m c2, sendMessage sender mid now text mtype chat = (.sent m, c2) →
        c2.messages = chat.messages ++ [m])
    ∧ (∀ st msg c2,
        sendMessage sender mid now text mtype chat = (.fail st msg, c2) →
        c2 = chat)
    ∧ (∀ c2, markMessageRead requester messageId now chat
          = (.ok 200 "Message marked as read", c2) →
        ∃ pre m post, chat.messages = pre ++ m :: post
          ∧ (m.mid == messageId) = true
          ∧ c2.messages = pre ++ markMsg now m :: post
          ∧ c2.isActive = chat.isActive)
    ∧ (∀ st msg c2, markMessageRead requester messageId now chat
          = (.err st msg, c2) → c2 = chat)
    ∧ (∀ c2, deactivateChat requester chat
          = (.ok 200 "Chat deactivated successfully", c2) →
        c2.messages = chat.messages ∧ c2.isActive = false)
    ∧ (∀ st msg c2, deactivateChat requester chat = (.err st msg, c2) →
        c2 = chat)
    ∧ (∀ r c2, reportChat requester reason now chat = (r, c2) →
        c2.messages = chat.messages) := by
  refine ⟨?_, ?_, ?_, ?_, ?_, ?_, ?_⟩
  · intro m c2 h
    unfold sendMessage at h
    by_cases hv : (decide (text.length < 1) || decide (text.length > 1000))
        = true
    · rw [if_pos hv] at h
      exact absurd h (by simp)
    · rw [if_neg hv] at h
      by_cases hpart : participantOk sender chat = true
      · simp only [hpart, Bool.not_true, if_false, Bool.false_eq_true] at h
        obtain ⟨h1, h2⟩ := Prod.mk.injEq .. ▸ h
        cases h1
        rw [← h2]
      · have : participantOk sender chat = false := by
          cases hq : participantOk sender chat
          · rfl
          · exact absurd hq hpart
        simp only [this, Bool.not_false, if_true] at h
        exact absurd h (by simp)
  · intro st msg c2 h
    unfold sendMessage at h
    by_cases hv : (decide (text.length < 1) || decide (text.length > 1000))
        = true
    · rw [if_pos hv] at h
      exact (Prod.mk.injEq .. ▸ h).2.symm
    · rw [if_neg hv] at h
      by_cases hpart : participantOk sender chat = true
      · simp only [hpart, Bool.not_true, if_false, Bool.false_eq_true] at h
        exact absurd h (by simp)
      · have hf : participantOk sender chat = false := by
          cases hq : participantOk sender chat
          · rfl
          · exact absurd hq hpart
        simp only [hf, Bool.not_false, if_true] at h
        exact (Prod.mk.injEq .. ▸ h).2.symm
  · intro c2 h
    unfold markMessageRead at h
    by_cases hpart : participantOk requester chat = true
    · simp only [hpart, Bool.not_true, if_false, Bool.false_eq_true] at h
      rcases ho : markFirst messageId now chat.messages with _ | ms
      · rw [ho] at h
        exact absurd h (by simp)
      · rw [ho] at h
        obtain ⟨pre, m, post, h1, h2, h3⟩ :=
          markFirst_spec messageId now chat.messages ms ho
        obtain ⟨hl, hr2⟩ := Prod.mk.injEq .. ▸ h
        refine ⟨pre, m, post, h1, h2, ?_, ?_⟩
        · rw [← hr2, h3]
        · rw [← hr2]
    · have hf : participantOk requester chat = false := by
        cases hq : participantOk requester chat
        · rfl
        · exact absurd hq hpart
      simp only [hf, Bool.not_false, if_true] at h
      exact absurd h (by simp)
  · intro st msg c2 h
    unfold markMessageRead at h
    by_cases hpart : participantOk requester chat = true
    · simp only [hpart, Bool.not_true, if_false, Bool.false_eq_true] at h
      rcases ho : markFirst messageId now chat.messages with _ | ms
      · rw [ho] at h
        exact (Prod.mk.injEq .. ▸ h).2.symm
      · rw [ho] at h
        exact absurd h (by simp)
    · have hf : participantOk requester chat = false := by
        cases hq : participantOk requester chat
        · rfl
        · exact absurd hq hpart
      simp only [hf, Bool.not_false, if_true] at h
      exact (Prod.mk.injEq .. ▸ h).2.symm
  · intro c2 h
    unfold deactivateChat at h
    by_cases hpart : participantOk requester chat = true
    · simp only [hpart, Bool.not_true, if_false, Bool.false_eq_true] at h
      obtain ⟨_, hr2⟩ := Prod.mk.injEq .. ▸ h
      rw [← hr2]
      exact ⟨rfl, rfl⟩
    · have hf : participantOk requester chat = false := by
        cases hq : participantOk requester chat
        · rfl
        · exact absurd hq hpart
      simp only [hf, Bool.not_false, if_true] at h
      exact absurd h (by simp)
  · intro st msg c2 h
    unfold deactivateChat at h
    by_cases hpart : participantOk requester chat = true
    · simp only [hpart, Bool.not_true, if_false, Bool.false_eq_true] at h
      exact absurd h (by simp)
    · have hf : participantOk requester chat = false := by
        cases hq : participantOk requester chat
        · rfl
        · exact absurd hq hpart
      simp only [hf, Bool.not_false, if_true] at h
      exact (Prod.mk.injEq .. ▸ h).2.symm
  · intro r c2 h
    unfold reportChat at h
    by_cases hv : reason.length < 10
    · rw [if_pos hv] at h
      obtain ⟨h1, h2⟩ := Prod.mk.injEq .. ▸ h
      rw [← h2]
    · rw [if_neg hv] at h
      by_cases hpart : participantOk requester chat = true
      · simp only [hpart, Bool.not_true, if_false, Bool.false_eq_true] at h
        obtain ⟨h1, h2⟩ := Prod.mk.injEq .. ▸ h
        rw [← h2]
      · have hf : participantOk requester chat = false := by
          cases hq : participantOk requester chat
          · rfl
          · exact absurd hq hpart
        simp only [hf, Bool.not_false, if_true] at h
        obtain ⟨h1, h2⟩ := Prod.mk.injEq .. ▸ h
        rw [← h2]

/-- Closed instance of chatMessages_appendOnly_spec on a concrete chat
with one stored message: posting appends exactly the new message,
mark-as-read splits around the stored message, the user delete keeps
the messages and clears isActive, and reporting keeps the messages. -/
theorem chatMessages_appendOnly_spec_witness :
    ((sendMessage ⟨1, "ckf", "f@x", "F", "", "farmer", "", ""⟩ 100 5 "hi"
        "text"
        ⟨20, 10, 1, 2, [1, 2],
          [⟨50, 2, "c@x", "C ", "user", "hello", "text", false, none, 1⟩],
          1, 0, 0, 1, true, false, "", none, none⟩).2.messages
      = [⟨50, 2, "c@x", "C ", "user", "hello", "text", false, none, 1⟩]
        ++ [⟨100, 1, "f@x", "F ", "farmer", "hi", "text", false, none, 5⟩])
    ∧ (∃ pre m post,
        [⟨50, 2, "c@x", "C ", "user", "hello", "text", false, none, 1⟩]
          = pre ++ m :: post
        ∧ (Message.mid m == 50) = true
        ∧ (markMessageRead ⟨2, "ckc", "c@x", "C", "", "consumer", "", ""⟩
            50 5
            ⟨20, 10, 1, 2, [1, 2],
              [⟨50, 2, "c@x", "C ", "user", "hello", "text", false, none,
                1⟩],
              1, 0, 0, 1, true, false, "", none, none⟩).2.messages
          = pre ++ markMsg 5 m :: post)
    ∧ ((deactivateChat ⟨2, "ckc", "c@x", "C", "", "consumer", "", ""⟩
        ⟨20, 10, 1, 2, [1, 2],
          [⟨50, 2, "c@x", "C ", "user", "hello", "text", false, none, 1⟩],
          1, 0, 0, 1, true, false, "", none, none⟩).2.messages
      = [⟨50, 2, "c@x", "C ", "user", "hello", "text", false, none, 1⟩])
    ∧ ((reportChat ⟨2, "ckc", "c@x", "C", "", "consumer", "", ""⟩
        "bad conversation here" 5
        ⟨20, 10, 1, 2, [1, 2],
          [⟨50, 2, "c@x", "C ", "user", "hello", "text", false, none, 1⟩],
          1, 0, 0, 1, true, false, "", none, none⟩).2.messages
      = [⟨50, 2, "c@x", "C ", "user", "hello", "text", false, none, 1⟩]) := by
  have h := chatMessages_appendOnly_spec
    ⟨1, "ckf", "f@x", "F", "", "farmer", "", ""⟩
    ⟨2, "ckc", "c@x", "C", "", "consumer", "", ""⟩
    100 5 50 "hi" "text" "bad conversation here"
    ⟨20, 10, 1, 2, [1, 2],
      [⟨50, 2, "c@x", "C ", "user", "hello", "text", false, none, 1⟩],
      1, 0, 0, 1, true, false, "", none, none⟩
  refine ⟨h.1 _ _ (by decide), ?_, ?_, ?_⟩
  · obtain ⟨pre, m, post, h1, h2, h3, _⟩ := h.2.2.1
      (markMessageRead ⟨2, "ckc", "c@x", "C", "", "consumer", "", ""⟩ 50 5
        ⟨20, 10, 1, 2, [1, 2],
          [⟨50, 2, "c@x", "C ", "user", "hello", "text", false, none, 1⟩],
          1, 0, 0, 1, true, false, "", none, none⟩).2 (by decide)
    exact ⟨pre, m, post, h1, h2, h3⟩
  · exact (h.2.2.2.2.1
      (deactivateChat ⟨2, "ckc", "c@x", "C", "", "consumer", "", ""⟩
        ⟨20, 10, 1, 2, [1, 2],
          [⟨50, 2, "c@x", "C ", "user", "hello", "text", false, none, 1⟩],
          1, 0, 0, 1, true, false, "", none, none⟩).2 (by decide)).1
  · exact h.2.2.2.2.2.2
      (reportChat ⟨2, "ckc", "c@x", "C", "", "consumer", "", ""⟩
        "bad conversation here" 5
        ⟨20, 10, 1, 2, [1, 2],
          [⟨50, 2, "c@x", "C ", "user", "hello", "text", false, none, 1⟩],
          1, 0, 0, 1, true, false, "", none, none⟩).1
      (reportChat ⟨2, "ckc", "c@x", "C", "", "consumer", "", ""⟩
        "bad conversation here" 5
        ⟨20, 10, 1, 2, [1, 2],
          [⟨50, 2, "c@x", "C ", "user", "hello", "text", false, none, 1⟩],
          1, 0, 0, 1, true, false, "", none, none⟩).2 (by decide)

/-- Claim C10: a message body that is empty or longer than 1000
characters is rejected with a 400 validation error before any database
write, leaving the chat document unchanged in every field; and a
message passing the Chat schema validation is capped at 1000
characters. -/
theorem sendMessage_validation_spec (sender : UserDoc) (mid now : Nat)
    (text mtype : String) (chat : ChatDoc)
    (hbad : text.length = 0 ∨ 1000 < text.length) :
    sendMessage sender mid now text mtype chat
        = (.fail 400 "Validation failed", chat)
    ∧ (∀ m : Message, messageSchemaValid m = true →
        m.message.length ≤ 1000) := by
  constructor
  · unfold sendMessage
    have hv : (decide (text.length < 1) || decide (text.length > 1000))
        = true := by
      rcases hbad with hc | hc <;> simp [hc]
    rw [if_pos hv]
  · intro m hm
    unfold messageSchemaValid at hm
    simp only [Bool.and_eq_true, decide_eq_true_eq] at hm
    exact hm.1.2

/-- Closed instance of sendMessage_validation_spec: an empty body on a
concrete chat is rejected and the chat is returned unchanged, and a
concrete schema-valid message is within the 1000-character cap. -/
theorem sendMessage_validation_spec_witness :
    sendMessage ⟨1, "ckf", "f@x", "F", "", "farmer", "", ""⟩ 100 5 "" "text"
        ⟨20, 10, 1, 2, [1, 2], [], 0, 0, 0, 0, true, false, "", none, none⟩
      = (.fail 400 "Validation failed",
        ⟨20, 10, 1, 2, [1, 2], [], 0, 0, 0, 0, true, false, "", none, none⟩)
    ∧ (⟨50, 2, "c@x", "C ", "user", "hello", "text", false, none, 1⟩
        : Message).message.length ≤ 1000 := by
  have h := sendMessage_validation_spec
    ⟨1, "ckf", "f@x", "F", "", "farmer", "", ""⟩ 100 5 "" "text"
    ⟨20, 10, 1, 2, [1, 2], [], 0, 0, 0, 0, true, false, "", none, none⟩
    (Or.inl rfl)
  exact ⟨h.1, h.2 _ (by decide)⟩

/-- Claim C5: the search uses the LLM branch exactly when the
lowercased query contains one of the ten fixed health-condition
keywords; the LLM branch keeps active plants whose naturalName,
scientificName or a commonNames entry equals an LLM-returned name, the
text branch keeps active plants with a case-insensitive substring hit
on one of the six searched fields. -/
theorem searchPlants_spec (q : String) (groqNames : Option (List String))
    (plants : List PlantDoc) :
    ((searchPlants q groqNames plants).2 = true ↔
      (healthConditions.any (fun c =>
        decide (c.toList <:+: (strToLower q).toList))) = true)
    ∧ (∀ names, groqNames = some names → isHealthCondition q = true →
        ∀ p, p ∈ (searchPlants q groqNames plants).1 ↔
          p ∈ plants ∧ llmNameHit names p = true)
    ∧ (isHealthCondition q = false →
        ∀ p, p ∈ (searchPlants q groqNames plants).1 ↔
          p ∈ plants ∧ textSearchHit q p = true) := by
  have hdef : (searchPlants q groqNames plants).2 = isHealthCondition q := by
    unfold searchPlants
    by_cases hh : isHealthCondition q = true
    · simp only [hh, if_true]
      cases groqNames <;> rfl
    · have hf : isHealthCondition q = false := by
        cases hq : isHealthCondition q
        · rfl
        · exact absurd hq hh
      simp only [hf, if_false, Bool.false_eq_true]
  refine ⟨by rw [hdef]; exact Iff.rfl, ?_, ?_⟩
  · intro names hn hh p
    unfold searchPlants
    simp only [hh, if_true, hn]
    exact List.mem_filter
  · intro hh p
    unfold searchPlants
    simp only [hh, if_false, Bool.false_eq_true]
    exact List.mem_filter

/-- Closed instance of searchPlants_spec: the query containing the
keyword cold goes through the LLM name-equality branch and keeps the
matching active plant, and a plain query goes through the substring
branch. -/
theorem searchPlants_spec_witness :
    ((⟨10, 1, "u@x", "U", "Tulsi", "Ocimum tenuiflorum", "", "",
        ["Holy Basil"], "Lamiaceae", 0, 0, "", "", "", true⟩ : PlantDoc)
      ∈ (searchPlants "I have a Cold" (some ["Tulsi"])
          [⟨10, 1, "u@x", "U", "Tulsi", "Ocimum tenuiflorum", "", "",
            ["Holy Basil"], "Lamiaceae", 0, 0, "", "", "", true⟩]).1
      ↔ (⟨10, 1, "u@x", "U", "Tulsi", "Ocimum tenuiflorum", "", "",
        ["Holy Basil"], "Lamiaceae", 0, 0, "", "", "", true⟩ : PlantDoc)
        ∈ [⟨10, 1, "u@x", "U", "Tulsi", "Ocimum tenuiflorum", "", "",
          ["Holy Basil"], "Lamiaceae", 0, 0, "", "", "", true⟩]
        ∧ llmNameHit ["Tulsi"]
          ⟨10, 1, "u@x", "U", "Tulsi", "Ocimum tenuiflorum", "", "",
            ["Holy Basil"], "Lamiaceae", 0, 0, "", "", "", true⟩ = true)
    ∧ ((⟨10, 1, "u@x", "U", "Tulsi", "Ocimum tenuiflorum", "", "",
        ["Holy Basil"], "Lamiaceae", 0, 0, "", "", "", true⟩ : PlantDoc)
      ∈ (searchPlants "tulsi" none
          [⟨10, 1, "u@x", "U", "Tulsi", "Ocimum tenuiflorum", "", "",
            ["Holy Basil"], "Lamiaceae", 0, 0, "", "", "", true⟩]).1
      ↔ (⟨10, 1, "u@x", "U", "Tulsi", "Ocimum tenuiflorum", "", "",
        ["Holy Basil"], "Lamiaceae", 0, 0, "", "", "", true⟩ : PlantDoc)
        ∈ [⟨10, 1, "u@x", "U", "Tulsi", "Ocimum tenuiflorum", "", "",
          ["Holy Basil"], "Lamiaceae", 0, 0, "", "", "", true⟩]
        ∧ textSearchHit "tulsi"
          ⟨10, 1, "u@x", "U", "Tulsi", "Ocimum tenuiflorum", "", "",
            ["Holy Basil"], "Lamiaceae", 0, 0, "", "", "", true⟩ = true) := by
  constructor
  · exact (searchPlants_spec "I have a Cold" (some ["Tulsi"])
      [⟨10, 1, "u@x", "U", "Tulsi", "Ocimum tenuiflorum", "", "",
        ["Holy Basil"], "Lamiaceae", 0, 0, "", "", "", true⟩]).2.1
      ["Tulsi"] rfl (by decide) _
  · exact (searchPlants_spec "tulsi" none
      [⟨10, 1, "u@x", "U", "Tulsi", "Ocimum tenuiflorum", "", "",
        ["Holy Basil"], "Lamiaceae", 0, 0, "", "", "", true⟩]).2.2
      (by decide) _

/-- Helper: insertion keeps exactly the inserted element plus the old
ones. -/
theorem mem_insertByDistance (e a : NearbyEntry) (l : List NearbyEntry) :
    a ∈ insertByDistance e l ↔ a = e ∨ a ∈ l := by
  induction l with
  | nil => simp [insertByDistance]
  | cons x xs ih =>
    unfold insertByDistance
    by_cases hc : e.distance ≤ x.distance
    · rw [if_pos hc]
      simp [or_comm]
    · rw [if_neg hc]
      simp only [List.mem_cons, ih]
      tauto

/-- Helper: inserting into an ascending list keeps it ascending. -/
theorem pairwise_insertByDistance (e : NearbyEntry) (l : List NearbyEntry)
    (h : l.Pairwise (fun a b => a.distance ≤ b.distance)) :
    (insertByDistance e l).Pairwise (fun a b => a.distance ≤ b.distance) := by
  induction l with
  | nil => simp [insertByDistance]
  | cons x xs ih =>
    rcases List.pairwise_cons.mp h with ⟨hx, hxs⟩
    unfold insertByDistance
    by_cases hc : e.distance ≤ x.distance
    · rw [if_pos hc]
      refine List.pairwise_cons.mpr ⟨?_, h⟩
      intro b hb
      rcases List.mem_cons.mp hb with rfl | hb2
      · exact hc
      · exact le_trans hc (hx b hb2)
    · rw [if_neg hc]
      refine List.pairwise_cons.mpr ⟨?_, ih hxs⟩
      intro b hb
      rcases (mem_insertByDistance e b xs).mp hb with rfl | hb2
      · exact le_of_not_le hc
      · exact hx b hb2

/-- Helper: the sort is a permutation at the level of membership. -/
theorem mem_sortByDistance (a : NearbyEntry) (l : List NearbyEntry) :
    a ∈ sortByDistance l ↔ a ∈ l := by
  induction l with
  | nil => simp [sortByDistance]
  | cons x xs ih =>
    unfold sortByDistance
    rw [mem_insertByDistance]
    simp [ih]

/-- Helper: the sort output is ascending in the carried distance. -/
theorem pairwise_sortByDistance (l : List NearbyEntry) :
    (sortByDistance l).Pairwise (fun a b => a.distance ≤ b.distance) := by
  induction l with
  | nil => simp [sortByDistance]
  | cons x xs ih =>
    unfold sortByDistance
    exact pairwise_insertByDistance x (sortByDistance xs) ih

/-- Claim C6: every entry of the plants-nearby response comes from a
stored plant whose resolved coordinates are not (0, 0), lies within
the requested radius for the distance function, carries that distance
rounded to 2 decimals, and the response is sorted by ascending
distance.  dist abstracts the haversine calculateDistance and geo the
geocoding fallback. -/
theorem plantsNearby_spec (dist : Rat → Rat → Rat → Rat → Rat)
    (geo : PlantDoc → Option (Rat × Rat)) (lat lng radius : Rat)
    (plants : List PlantDoc) :
    (∀ e ∈ plantsNearby dist geo lat lng radius plants,
        e.plant ∈ plants
        ∧ ¬((resolveCoords geo e.plant).1 = 0
            ∧ (resolveCoords geo e.plant).2 = 0)
        ∧ dist lat lng (resolveCoords geo e.plant).1
            (resolveCoords geo e.plant).2 ≤ radius
        ∧ e.distance = round2 (dist lat lng (resolveCoords geo e.plant).1
            (resolveCoords geo e.plant).2))
    ∧ (plantsNearby dist geo lat lng radius plants).Pairwise
        (fun a b => a.distance ≤ b.distance) := by
  constructor
  · intro e he
    rw [plantsNearby, mem_sortByDistance] at he
    obtain ⟨p, hp, hf⟩ := List.mem_filterMap.mp he
    have hpp : p ∈ plants := (List.mem_filter.mp hp).1
    unfold nearbyEntry at hf
    by_cases h1 : ((resolveCoords geo p).1 != 0
        && (resolveCoords geo p).2 != 0) = true
    · rw [if_pos h1] at hf
      by_cases h2 : dist lat lng (resolveCoords geo p).1
          (resolveCoords geo p).2 ≤ radius
      · rw [if_pos h2] at hf
        have he2 : e = ⟨p, round2 (dist lat lng (resolveCoords geo p).1
            (resolveCoords geo p).2)⟩ := (Option.some.inj hf).symm
        subst he2
        refine ⟨hpp, ?_, h2, rfl⟩
        simp only [Bool.and_eq_true, bne_iff_ne, ne_eq] at h1
        intro hz
        exact h1.1 hz.1
      · rw [if_neg h2] at hf
        exact absurd hf (by simp)
    · rw [if_neg h1] at hf
      exact absurd hf (by simp)
  · rw [plantsNearby]
    exact pairwise_sortByDistance _

/-- Closed instance of plantsNearby_spec: a plant stored at (0, 0) with
a city is geocoded to (5, 7), passes the zero-radius filter for the
constant-zero distance function, and its entry carries the rounded
distance. -/
theorem plantsNearby_spec_witness :
    (⟨5, 7⟩ : Rat × Rat)
        = resolveCoords (fun _ => some (5, 7))
            ⟨11, 1, "u@x", "U", "Tulsi", "Ocimum", "", "", [], "",
              0, 0, "Pune", "MH", "IN", true⟩
    ∧ (⟨⟨11, 1, "u@x", "U", "Tulsi", "Ocimum", "", "", [], "",
          0, 0, "Pune", "MH", "IN", true⟩,
        round2 ((fun _ _ _ _ => (0 : Rat)) 0 0 5 7)⟩ : NearbyEntry).distance
      = round2 ((fun _ _ _ _ => (0 : Rat)) 0 0
          (resolveCoords (fun _ => some (5, 7))
            ⟨11, 1, "u@x", "U", "Tulsi", "Ocimum", "", "", [], "",
              0, 0, "Pune", "MH", "IN", true⟩).1
          (resolveCoords (fun _ => some (5, 7))
            ⟨11, 1, "u@x", "U", "Tulsi", "Ocimum", "", "", [], "",
              0, 0, "Pune", "MH", "IN", true⟩).2)
    ∧ ¬((resolveCoords (fun _ => some (5, 7))
          ⟨11, 1, "u@x", "U", "Tulsi", "Ocimum", "", "", [], "",
            0, 0, "Pune", "MH", "IN", true⟩).1 = 0
        ∧ (resolveCoords (fun _ => some (5, 7))
          ⟨11, 1, "u@x", "U", "Tulsi", "Ocimum", "", "", [], "",
            0, 0, "Pune", "MH", "IN", true⟩).2 = 0) := by
  have hmem : (⟨⟨11, 1, "u@x", "U", "Tulsi", "Ocimum", "", "", [], "",
        0, 0, "Pune", "MH", "IN", true⟩,
      round2 ((fun _ _ _ _ => (0 : Rat)) 0 0 5 7)⟩ : NearbyEntry)
      ∈ plantsNearby (fun _ _ _ _ => (0 : Rat)) (fun _ => some (5, 7))
        0 0 0
        [⟨11, 1, "u@x", "U", "Tulsi", "Ocimum", "", "", [], "",
          0, 0, "Pune", "MH", "IN", true⟩] := by
    simp [plantsNearby, sortByDistance, insertByDistance, nearbyEntry,
      nearbyPrefilter, resolveCoords]
  have h := (plantsNearby_spec (fun _ _ _ _ => (0 : Rat))
    (fun _ => some (5, 7)) 0 0 0
    [⟨11, 1, "u@x", "U", "Tulsi", "Ocimum", "", "", [], "",
      0, 0, "Pune", "MH", "IN", true⟩]).1 _ hmem
  refine ⟨?_, h.2.2.2, h.2.1⟩
  simp [resolveCoords]

/-- Claim C8: a send-message event produces exactly one
receive-message emit, with the same payload, for every socket of the
room named by the payload chatId other than the sender, and none for
any other socket; join-chat and leave-chat add and remove the socket
in exactly that room, leaving every other room unchanged. -/
theorem socketRooms_spec (st : Rooms) (sender : String)
    (data : SocketPayload) (sock chatId : String)
    (hnd : (st data.chatId).Nodup) :
    (∀ e ∈ handleSendMessage st sender data,
        e.event = "receive-message" ∧ e.payload = data
        ∧ e.target ∈ st data.chatId ∧ e.target ≠ sender)
    ∧ (∀ s : String, s ∈ st data.chatId → s ≠ sender →
        ((handleSendMessage st sender data).map Emit.target).count s = 1)
    ∧ (∀ s : String, s ∉ st data.chatId ∨ s = sender →
        ((handleSendMessage st sender data).map Emit.target).count s = 0)
    ∧ sock ∈ joinChat sock chatId st chatId
    ∧ (∀ r, r ≠ chatId → joinChat sock chatId st r = st r)
    ∧ (∀ s : String, s ≠ sock →
        (s ∈ joinChat sock chatId st chatId ↔ s ∈ st chatId))
    ∧ sock ∉ leaveChat sock chatId st chatId
    ∧ (∀ r, r ≠ chatId → leaveChat sock chatId st r = st r)
    ∧ (∀ s : String, s ≠ sock →
        (s ∈ leaveChat sock chatId st chatId ↔ s ∈ st chatId)) := by
  have htargets : (handleSendMessage st sender data).map Emit.target
      = (st data.chatId).filter (fun s => s ≠ sender) := by
    unfold handleSendMessage
    rw [List.map_map]
    have hcomp : (Emit.target ∘ fun t =>
        (⟨t, "receive-message", data⟩ : Emit)) = id := rfl
    rw [hcomp, List.map_id]
  refine ⟨?_, ?_, ?_, ?_, ?_, ?_, ?_, ?_, ?_⟩
  · intro e he
    unfold handleSendMessage at he
    obtain ⟨t, ht, rfl⟩ := List.mem_map.mp he
    obtain ⟨hin, hne⟩ := List.mem_filter.mp ht
    exact ⟨rfl, rfl, hin, by simpa using hne⟩
  · intro s hs hsne
    rw [htargets]
    refine List.count_eq_one_of_mem (hnd.filter _) ?_
    exact List.mem_filter.mpr ⟨hs, by simpa using hsne⟩
  · intro s hs
    rw [htargets]
    refine List.count_eq_zero.mpr ?_
    intro hmem
    obtain ⟨hin, hdec⟩ := List.mem_filter.mp hmem
    rcases hs with hs | hs
    · exact hs hin
    · rw [hs] at hdec
      simp at hdec
  · unfold joinChat
    rw [if_pos rfl]
    by_cases hmem : sock ∈ st chatId
    · rw [if_pos hmem]
      exact hmem
    · rw [if_neg hmem]
      exact List.mem_cons_self sock _
  · intro r hr
    unfold joinChat
    rw [if_neg hr]
  · intro s hs
    unfold joinChat
    rw [if_pos rfl]
    by_cases hmem : sock ∈ st chatId
    · rw [if_pos hmem]
    · rw [if_neg hmem]
      simp [hs]
  · unfold leaveChat
    rw [if_pos rfl]
    intro hmem
    have := (List.mem_filter.mp hmem).2
    simp at this
  · intro r hr
    unfold leaveChat
    rw [if_neg hr]
  · intro s hs
    unfold leaveChat
    rw [if_pos rfl]
    constructor
    · intro hmem
      exact (List.mem_filter.mp hmem).1
    · intro hmem
      exact List.mem_filter.mpr ⟨hmem, by simpa using hs⟩

/-- Closed instance of socketRooms_spec: in a room c1 holding sockets
s1 and s2, a send-message from s1 is delivered exactly once to s2 and
not to s1, a join adds s3 to c1 without touching room c2, and a leave
removes s1. -/
theorem socketRooms_spec_witness :
    (((handleSendMessage
        (joinChat "s2" "c1" (joinChat "s1" "c1" emptyRooms)) "s1"
        ⟨"c1", "hello"⟩).map Emit.target).count "s2" = 1)
    ∧ (((handleSendMessage
        (joinChat "s2" "c1" (joinChat "s1" "c1" emptyRooms)) "s1"
        ⟨"c1", "hello"⟩).map Emit.target).count "s1" = 0)
    ∧ ("s3" ∈ joinChat "s3" "c1"
        (joinChat "s2" "c1" (joinChat "s1" "c1" emptyRooms)) "c1")
    ∧ (joinChat "s3" "c1"
        (joinChat "s2" "c1" (joinChat "s1" "c1" emptyRooms)) "c2"
      = joinChat "s2" "c1" (joinChat "s1" "c1" emptyRooms) "c2")
    ∧ ("s1" ∉ leaveChat "s1" "c1"
        (joinChat "s2" "c1" (joinChat "s1" "c1" emptyRooms)) "c1") := by
  have h := socketRooms_spec
    (joinChat "s2" "c1" (joinChat "s1" "c1" emptyRooms)) "s1"
    ⟨"c1", "hello"⟩ "s3" "c1"
    (by simp [joinChat, emptyRooms])
  refine ⟨h.2.1 "s2" ?_ (by decide), h.2.2.1 "s1" (Or.inr rfl),
    h.2.2.2.1, h.2.2.2.2.1 "c2" (by decide), ?_⟩
  · simp [joinChat, emptyRooms]
  · have h2 := socketRooms_spec
      (joinChat "s2" "c1" (joinChat "s1" "c1" emptyRooms)) "s1"
      ⟨"c1", "hello"⟩ "s1" "c1"
      (by simp [joinChat, emptyRooms])
    exact h2.2.2.2.2.2.2.1

end AyurMap
